import Mathlib

/-!
Shallow embedding of the Agent365-devTools leaderboard scripts
(`scripts/assign_points.py` and `scripts/update_leaderboard.py`).

The two Python scripts are batch jobs over three persisted artifacts:
a YAML points configuration, a JSON list of processed event ids, and a
JSON score map (`leaderboard.json`).  We model JSON/YAML values with
small inductive types (numbers as `Int`: no claim depends on float
behaviour; JSON booleans are a separate case, because Python's `bool`
subclasses `int` and therefore passes the scripts'
`isinstance(v, (int, float))` filter with numeric content 1/0),
files as inductives with `missing`/`corrupt`/parsed cases,
and Python dicts as insertion-ordered association lists with unique
keys, which matches `json.dump`/`json.load` round-tripping of objects.
Python's substring test `needle in haystack` is modelled as
`List.IsInfix` over the character lists, and `str.lower` as a
character-wise `Char.toLower` (the keywords involved are ASCII).
-/

namespace Agent365

/-- A JSON scalar value as stored in `leaderboard.json` entries.
`num` covers Python `int`/`float` (modelled as `Int`); `bool` covers
JSON `true`/`false`, which `json.load` gives to Python as `bool` -- an
`int` subclass with numeric value 1/0; `str` covers strings; `other`
covers any other JSON value (object, array, null), which the scripts
never inspect beyond an `isinstance(v, (int, float))` test. -/
inductive JVal where
  | num (n : Int)
  | bool (b : Bool)
  | str (s : String)
  | other
deriving DecidableEq, Repr

/-- `True` exactly when the Python test `isinstance(v, (int, float))`
succeeds.  Booleans pass it: Python's `bool` is a subclass of `int`,
so `isinstance(True, (int, float))` is `True`. -/
def JVal.isNumber : JVal → Bool
  | .num _ => true
  | .bool _ => true
  | _ => false

/-- The numeric content of a value that passes `isNumber` (`True`
counts as 1 and `False` as 0, exactly as in Python arithmetic,
comparisons and equality; non-numeric values never reach this in the
modelled paths). -/
def JVal.asInt : JVal → Int
  | .num n => n
  | .bool b => if b then 1 else 0
  | _ => 0

/-- A review/comment id used as de-duplication key: GitHub ids are
numeric, but the processed-ids list is heterogeneous JSON, so we allow
strings as well.  Python compares them with `==`. -/
inductive EventId where
  | num (n : Int)
  | str (s : String)
deriving DecidableEq, Repr

/-- The `user` sub-object of a review/comment/sender: only `login` is
read.  `login := none` models both an absent key and a falsy value
(the code tests `if login:`). -/
structure GhUser where
  login : Option String
deriving DecidableEq, Repr

/-- The `review` sub-object of an event.  Absent keys are `none`;
`review.get('body') or ''` treats `None` and `""` alike, so `none`
also models an explicit `null`. -/
structure Review where
  user : Option GhUser
  body : Option String
  state : Option String
  id : Option EventId
deriving DecidableEq, Repr

/-- The `comment` sub-object of an event. -/
structure Comment where
  user : Option GhUser
  body : Option String
  id : Option EventId
deriving DecidableEq, Repr

/-- The `issue` sub-object: the event loader only asks whether the
`pull_request` key is present in it, so we record just that bit. -/
structure Issue where
  pull_request : Bool
deriving DecidableEq, Repr

/-- A GitHub webhook event payload, restricted to the fields the
scripts read. -/
structure Event where
  action : Option String
  review : Option Review
  comment : Option Comment
  sender : Option GhUser
  issue : Option Issue
deriving DecidableEq, Repr

/-- The validated points configuration: the four values of the
`points` section of `config_points.yml` (the loader validates key
presence only; runs that reach scoring use them as numbers). -/
structure Points where
  basic_review : Int
  detailed_review : Int
  performance_improvement : Int
  approve_pr : Int
deriving DecidableEq, Repr

/-- Python's substring test `needle in haystack` on strings:
the needle's characters form a contiguous infix of the haystack's. -/
def pyIn (needle haystack : String) : Prop :=
  needle.data <:+: haystack.data

instance (n h : String) : Decidable (pyIn n h) :=
  List.decidableInfix n.data h.data

/-- `(x or '')` for an optional string: `None` and `""` both give `""`. -/
def orEmpty : Option String → String
  | none => ""
  | some s => s

/-- Python's `str.lower()`, character by character (the keywords and
states compared by the scripts are ASCII, where Python's `lower` and
`Char.toLower` agree). -/
def pyLower (s : String) : String :=
  ⟨s.data.map Char.toLower⟩

/-! ### extract_user (assign_points.py lines 105-142) -/

/-- `extract_user`: ordered fallback review.user → comment.user →
sender, returning the first present login together with a tag naming
the source, or `none` when all three fail. -/
def extract_user (event : Event) : Option (String × String) :=
  match event.review.bind Review.user with
  | some u =>
    match u.login with
    | some login => some (login, "review.user")
    | none =>
      match event.comment.bind Comment.user with
      | some c =>
        match c.login with
        | some login => some (login, "comment.user")
        | none => event.sender.bind fun s => s.login.map fun l => (l, "sender")
      | none => event.sender.bind fun s => s.login.map fun l => (l, "sender")
  | none =>
    match event.comment.bind Comment.user with
    | some c =>
      match c.login with
      | some login => some (login, "comment.user")
      | none => event.sender.bind fun s => s.login.map fun l => (l, "sender")
    | none => event.sender.bind fun s => s.login.map fun l => (l, "sender")

/-! ### detect_points (assign_points.py lines 144-227) -/

/-- `review_body = (review.get('body') or '').lower()`. -/
def lower_review_body (event : Event) : String :=
  pyLower (orEmpty (event.review.bind Review.body))

/-- `review_state = (review.get('state') or '').lower()`. -/
def lower_review_state (event : Event) : String :=
  pyLower (orEmpty (event.review.bind Review.state))

/-- `comment_body = (comment.get('body') or '').lower()`. -/
def lower_comment_body (event : Event) : String :=
  pyLower (orEmpty (event.comment.bind Comment.body))

/-- `detect_points`: resolves the user (or fails, modelling `sys.exit(1)`
as `none`) and accumulates points exactly in the source's order:
review-tier `if/elif`, then performance bonus, then approval bonus. -/
def detect_points (event : Event) (cfg : Points) : Option (Int × String) :=
  let review_body := lower_review_body event
  let review_state := lower_review_state event
  let comment_body := lower_comment_body event
  match extract_user event with
  | none => none
  | some (user, _source) =>
    let points : Int := 0
    let points :=
      if pyIn "detailed" review_body then points + cfg.detailed_review
      else if pyIn "basic review" review_body then points + cfg.basic_review
      else points
    let points :=
      if pyIn "performance" comment_body ∨ pyIn "performance" review_body then
        points + cfg.performance_improvement
      else points
    let points :=
      if event.action = some "submitted" ∧ review_state = "approved" then
        points + cfg.approve_pr
      else points
    some (points, user)

/-- The review-tier component of `detect_points` (the `if/elif` block). -/
def review_tier_points (event : Event) (cfg : Points) : Int :=
  if pyIn "detailed" (lower_review_body event) then cfg.detailed_review
  else if pyIn "basic review" (lower_review_body event) then cfg.basic_review
  else 0

/-- The performance-bonus component of `detect_points`. -/
def performance_points (event : Event) (cfg : Points) : Int :=
  if pyIn "performance" (lower_comment_body event) ∨
      pyIn "performance" (lower_review_body event) then
    cfg.performance_improvement
  else 0

/-- The approval-bonus component of `detect_points`. -/
def approval_points (event : Event) (cfg : Points) : Int :=
  if event.action = some "submitted" ∧ lower_review_state event = "approved" then
    cfg.approve_pr
  else 0

/-! ### load_config (assign_points.py lines 20-60) -/

/-- A parsed YAML value, as far as the config loader inspects one. -/
inductive YVal where
  | dict (entries : List (String × YVal))
  | num (n : Int)
  | str (s : String)
  | null
deriving Repr

/-- The on-disk state of `config_points.yml`: absent, unparsable YAML,
or a parsed value. -/
inductive CfgFile where
  | missing
  | invalidYaml
  | parsed (config : YVal)

/-- `key in d` for a parsed YAML mapping (`False` on non-mappings;
Python would raise a `TypeError` there, outside the modelled paths). -/
def YVal.hasKey (v : YVal) (key : String) : Prop :=
  match v with
  | .dict entries => key ∈ entries.map Prod.fst
  | _ => False

instance (v : YVal) (key : String) : Decidable (v.hasKey key) := by
  unfold YVal.hasKey
  cases v <;> infer_instance

/-- `d.get(key)` (or `d[key]`) on a parsed YAML mapping. -/
def YVal.get : YVal → String → Option YVal
  | .dict entries, key => entries.lookup key
  | _, _ => none

/-- Python's `sep.join(parts)`. -/
def pyJoin (sep : String) : List String → String
  | [] => ""
  | [a] => a
  | a :: b :: rest => a ++ sep ++ pyJoin sep (b :: rest)

/-- The four required keys of the `points` section. -/
def required_keys : List String :=
  ["basic_review", "detailed_review", "performance_improvement", "approve_pr"]

/-- `load_config`: fatal (`Except.error` with the first stderr line,
modelling `sys.exit(1)`) if the file is missing, unparsable, not a
mapping, missing the `points` section, or missing any required key;
otherwise returns the parsed config unchanged -- no defaults. -/
def load_config (file : CfgFile) : Except String YVal :=
  match file with
  | .missing => .error "ERROR: Config file not found"
  | .invalidYaml => .error "ERROR: Invalid YAML in config file"
  | .parsed config =>
    match config with
    | .dict entries =>
      match (YVal.dict entries).get "points" with
      | none => .error "ERROR: Invalid config structure"
      | some pts =>
        let missing_keys := required_keys.filter fun key => ¬ pts.hasKey key
        if missing_keys.isEmpty then .ok config
        else .error ("ERROR: Missing required keys in config: " ++ pyJoin ", " missing_keys)
    | _ => .error "ERROR: Invalid config structure"

/-! ### load_event (assign_points.py lines 62-78) -/

/-- The source of the event payload: `GITHUB_EVENT_PATH` unset, the
file absent, or a parsed payload.  (Malformed JSON raises an uncaught
exception in the source; that case is outside the modelled inputs.) -/
inductive EvFile where
  | unset
  | fileMissing
  | parsed (event : Event)

/-- Result of `load_event`: fatal error (`sys.exit(1)`), deliberate
skip (`sys.exit(2)`, the no-op outcome), or the loaded event. -/
inductive LoadEvent where
  | fatal
  | skip
  | ok (event : Event)
deriving DecidableEq

/-- `'issue' in event and 'pull_request' not in event.get('issue', {})`:
the payload is a comment on a plain issue, not on a pull request. -/
def is_plain_issue (event : Event) : Bool :=
  match event.issue with
  | some iss => ¬ iss.pull_request
  | none => false

/-- `load_event`: fatal if the path is unset or the file missing;
no-op skip for plain-issue comments; otherwise the event. -/
def load_event (file : EvFile) : LoadEvent :=
  match file with
  | .unset => .fatal
  | .fileMissing => .fatal
  | .parsed event => if is_plain_issue event then .skip else .ok event

/-! ### processed ids (assign_points.py lines 80-103) -/

/-- The on-disk state of `processed_ids.json`. -/
inductive ProcFile where
  | missing
  | corrupt
  | ids (l : List EventId)
deriving DecidableEq, Repr

/-- `load_processed_ids`: a missing file or a `JSONDecodeError` both
yield the empty list. -/
def load_processed_ids : ProcFile → List EventId
  | .missing => []
  | .corrupt => []
  | .ids l => l

/-! ### update_leaderboard (assign_points.py lines 229-264) -/

/-- The on-disk state of `leaderboard.json`: absent, unparsable, or a
JSON object given as its insertion-ordered entries. -/
inductive LbFile where
  | missing
  | corrupt
  | obj (entries : List (String × JVal))
deriving DecidableEq, Repr

/-- The dict comprehension
`{k: v for k, v in data.items() if k != 'top' and isinstance(v, (int, float))}`
shared verbatim by `assign_points.update_leaderboard` and
`update_leaderboard.load_leaderboard`.  Surviving values -- ints,
floats and bools -- are kept as their numeric content, which is what
every downstream use (addition, sort keys, `max`, comparisons) sees. -/
def filter_entries (entries : List (String × JVal)) : List (String × Int) :=
  entries.filterMap fun kv =>
    if kv.1 ≠ "top" ∧ kv.2.isNumber = true then some (kv.1, kv.2.asInt)
    else none

/-- `leaderboard.get(user, 0)`. -/
def lookupD (lb : List (String × Int)) (user : String) : Int :=
  (lb.lookup user).getD 0

/-- `leaderboard[user] = v` on an insertion-ordered dict: replaces the
(unique) existing key in place, else appends at the end. -/
def dictSet : List (String × Int) → String → Int → List (String × Int)
  | [], user, v => [(user, v)]
  | kv :: rest, user, v =>
    if kv.1 = user then (user, v) :: rest else kv :: dictSet rest user v

/-- The score map `assign_points.update_leaderboard` starts from:
missing or corrupt files give the empty map, otherwise the filtered
entries. -/
def loaded_award_map : LbFile → List (String × Int)
  | .missing => []
  | .corrupt => []
  | .obj entries => filter_entries entries

/-- `update_leaderboard(user, points)`: the full map written back
(`leaderboard[user] = leaderboard.get(user, 0) + points`). -/
def update_leaderboard (file : LbFile) (user : String) (points : Int) :
    List (String × Int) :=
  let leaderboard := loaded_award_map file
  dictSet leaderboard user (lookupD leaderboard user + points)

/-! ### main (assign_points.py lines 266-296) -/

/-- The three exit outcomes of `assign_points.main`:
exit 0 success, exit 1 error, exit 2 no-op. -/
inductive Outcome where
  | success
  | error
  | noop
deriving DecidableEq, Repr

/-- The persisted state the scoring processor reads and writes. -/
structure SysState where
  procFile : ProcFile
  lbFile : LbFile
deriving DecidableEq, Repr

/-- `event.get('review', {}).get('id')`, falling back to
`event.get('comment', {}).get('id')`. -/
def event_id (event : Event) : Option EventId :=
  match event.review.bind Review.id with
  | some i => some i
  | none => event.comment.bind Comment.id

/-- `assign_points.main`, from the point where the configuration has
loaded successfully with the four integer point values (`cfg`): loads
the event, scores it, extracts the dedup id, applies the duplicate
guard and the zero-points guard, and on success writes the updated
score map and the appended processed-id list.  Returns the exit
outcome and the persisted state left behind. -/
def runMain (cfg : Points) (evFile : EvFile) (st : SysState) :
    Outcome × SysState :=
  match load_event evFile with
  | .fatal => (.error, st)
  | .skip => (.noop, st)
  | .ok event =>
    match detect_points event cfg with
    | none => (.error, st)
    | some (points, user) =>
      match event_id event with
      | none => (.noop, st)
      | some id =>
        let processed_ids := load_processed_ids st.procFile
        if id ∈ processed_ids then (.noop, st)
        else if points ≤ 0 then (.noop, st)
        else
          let newLb := update_leaderboard st.lbFile user points
          (.success,
            { procFile := .ids (processed_ids ++ [id]),
              lbFile := .obj (newLb.map fun kv => (kv.1, JVal.num kv.2)) })

/-! ### update_leaderboard.py -/

/-- `load_leaderboard`: `none` models `sys.exit(1)` on a missing file
or invalid JSON (stricter than the award path by design); otherwise
the filtered entries. -/
def load_leaderboard : LbFile → Option (List (String × Int))
  | .missing => none
  | .corrupt => none
  | .obj entries => some (filter_entries entries)

/-- `max(leaderboard, key=leaderboard.get)` starting from a first
element: keeps the current maximum and replaces it only on a strictly
greater value, so the first maximal entry in iteration order wins. -/
def pyMax (x : String × Int) (xs : List (String × Int)) : String × Int :=
  xs.foldl (fun best y => if y.2 > best.2 then y else best) x

/-- `key in d` / `d[key] = v` on the JSON-valued dict written by
`update_leaderboard_json`: replace in place, else append. -/
def dictSetJ : List (String × JVal) → String → JVal → List (String × JVal)
  | [], key, v => [(key, v)]
  | kv :: rest, key, v =>
    if kv.1 = key then (key, v) :: rest else kv :: dictSetJ rest key v

/-- `update_leaderboard_json`: the object written back to
`leaderboard.json` -- the loaded map plus the `top` bookkeeping entry
(`"{top_user} ({pts} pts)"`, or the placeholder on an empty map). -/
def update_leaderboard_json (leaderboard : List (String × Int)) :
    List (String × JVal) :=
  let top_contributor :=
    match leaderboard with
    | [] => "No contributors yet"
    | x :: xs =>
      let top_user := (pyMax x xs).1
      top_user ++ " (" ++ toString ((leaderboard.lookup top_user).getD 0) ++ " pts)"
  dictSetJ (leaderboard.map fun kv => (kv.1, JVal.num kv.2)) "top"
    (JVal.str top_contributor)

/-- The comparison underlying
`sorted(leaderboard.items(), key=lambda x: (-x[1], x[0]))`:
tuple order on `(-points, username)`. -/
def le_key (a b : String × Int) : Bool :=
  decide (b.2 < a.2) || (decide (a.2 = b.2) && decide (a.1 ≤ b.1))

/-- `sorted_leaders`: descending points, ties by ascending username
(both `sorted` and `mergeSort` are stable, and the key comparison is a
total preorder, so they agree). -/
def sorted_leaders (leaderboard : List (String × Int)) : List (String × Int) :=
  leaderboard.mergeSort le_key

/-- The trophy marker prepended to the top three ranks. -/
def trophy (rank : Nat) : String :=
  if rank = 1 then "🥇 "
  else if rank = 2 then "🥈 "
  else if rank = 3 then "🥉 "
  else ""

/-- One table row:
`f"| {rank} | {trophy}[@{user}](https://github.com/{user}) | {points} |\n"`. -/
def render_row (rank : Nat) (user : String) (points : Int) : String :=
  "| " ++ toString rank ++ " | " ++ trophy rank ++ "[@" ++ user ++
    "](https://github.com/" ++ user ++ ") | " ++ toString points ++ " |\n"

/-- The fixed heading and table header of the rendered document. -/
def md_header : String :=
  "# 🏆 Leaderboard\n\n" ++
  "Thank you to all our contributors! Points are awarded for code reviews, " ++
  "performance improvements, and quality contributions.\n\n" ++
  "| Rank | Contributor | Points |\n" ++
  "|------|-------------|--------|\n"

/-- The fixed explanatory footer of the rendered document. -/
def md_footer : String :=
  "\n---\n\n" ++
  "### How to Earn Points\n\n" ++
  "- **Basic Review** (5 pts): Include \"basic review\" in your PR review\n" ++
  "- **Detailed Review** (10 pts): Include \"detailed\" in your in-depth review\n" ++
  "- **Performance Improvement** (+4 pts): Mention \"performance\" optimizations\n" ++
  "- **Approve PR** (+3 pts): Approve a pull request\n\n" ++
  "_Points are case-insensitive and bonuses stack!_\n"

/-- The placeholder document produced for an empty score map. -/
def md_empty : String :=
  "# 🏆 Leaderboard\n\nNo contributors yet. Be the first to contribute!\n"

/-- `generate_markdown`: the placeholder for an empty map, otherwise
header, one row per entry of the sorted map with ranks enumerated from
1, and the fixed footer. -/
def generate_markdown (leaderboard : List (String × Int)) : String :=
  if leaderboard.isEmpty then md_empty
  else
    md_header ++
      String.join ((List.enumFrom 1 (sorted_leaders leaderboard)).map
        fun rkv => render_row rkv.1 rkv.2.1 rkv.2.2) ++
      md_footer

/-- `update_leaderboard.main`: loads the score map (fatal on missing
or corrupt input), writes back the map with the `top` entry, and
renders the markdown document from the map with the `top` key
excluded.  Returns the rewritten JSON file and the document text. -/
def render_main (file : LbFile) : Except Unit (LbFile × String) :=
  match load_leaderboard file with
  | none => .error ()
  | some leaderboard =>
    let newJson := update_leaderboard_json leaderboard
    let leaderboard_for_md := leaderboard.filter fun kv => kv.1 ≠ "top"
    let markdown_content := generate_markdown leaderboard_for_md
    .ok (.obj newJson, markdown_content)

/-! ### Concrete fixtures used by witnesses -/

/-- The point values of the repository's sample configuration. -/
def cfgF : Points :=
  { basic_review := 5, detailed_review := 10,
    performance_improvement := 4, approve_pr := 3 }

/-- A review event whose body contains both tier keywords. -/
def evBoth : Event :=
  { action := some "submitted",
    review := some { user := some { login := some "bob" },
                     body := some "A Detailed take on this Basic Review",
                     state := some "commented", id := some (.num 11) },
    comment := none, sender := none, issue := none }

/-- An event with "performance" in both the comment and review bodies. -/
def evPerf : Event :=
  { action := some "created",
    review := some { user := none, body := some "great Performance",
                     state := none, id := none },
    comment := some { user := some { login := some "carol" },
                      body := some "PERFORMANCE win", id := some (.num 12) },
    sender := none, issue := none }

/-- An approved review submission with a detailed body. -/
def evApprove : Event :=
  { action := some "submitted",
    review := some { user := some { login := some "alice" },
                     body := some "detailed pass", state := some "APPROVED",
                     id := some (.num 7) },
    comment := none, sender := none, issue := none }

/-- A comment on a plain issue (no `pull_request` key), with no
identifiable user. -/
def evIssue : Event :=
  { action := some "created", review := none, comment := none,
    sender := none, issue := some { pull_request := false } }

/-! ## Theorems -/

/-- The total computed by `detect_points` is the sum of its three
components, attributed to the extracted user. -/
theorem detect_points_decomp (event : Event) (cfg : Points) :
    detect_points event cfg =
      (extract_user event).map fun us =>
        (review_tier_points event cfg + performance_points event cfg +
          approval_points event cfg, us.1) := by
  unfold detect_points review_tier_points performance_points approval_points
  cases extract_user event with
  | none => rfl
  | some us =>
    cases us with
    | mk user source =>
      simp only [Option.map_some']
      by_cases h1 : pyIn "detailed" (lower_review_body event) <;>
        by_cases h2 : pyIn "basic review" (lower_review_body event) <;>
        by_cases h3 : pyIn "performance" (lower_comment_body event) ∨
          pyIn "performance" (lower_review_body event) <;>
        by_cases h4 : event.action = some "submitted" ∧
          lower_review_state event = "approved" <;>
        simp [h1, h2, h3, h4]

/-- C2: if the review body contains both "detailed" and "basic review"
(case-insensitively), the review tier contributes exactly the
`detailed_review` value -- never `basic_review`, never the sum -- and
the total is that value plus the independent bonuses. -/
theorem detailed_beats_basic (event : Event) (cfg : Points) (user source : String)
    (hu : extract_user event = some (user, source))
    (h1 : pyIn "detailed" (lower_review_body event))
    (_h2 : pyIn "basic review" (lower_review_body event)) :
    review_tier_points event cfg = cfg.detailed_review ∧
    detect_points event cfg =
      some (cfg.detailed_review + performance_points event cfg +
        approval_points event cfg, user) := by
  have ht : review_tier_points event cfg = cfg.detailed_review := by
    unfold review_tier_points
    rw [if_pos h1]
  have hd := detect_points_decomp event cfg
  rw [hu, Option.map_some', ht] at hd
  exact ⟨ht, hd⟩

/-- Witness for C2 at a concrete event containing both keywords. -/
theorem detailed_beats_basic_witness :
    review_tier_points evBoth cfgF = cfgF.detailed_review ∧
    detect_points evBoth cfgF =
      some (cfgF.detailed_review + performance_points evBoth cfgF +
        approval_points evBoth cfgF, "bob") :=
  detailed_beats_basic evBoth cfgF "bob" "review.user" (by rfl)
    (by decide) (by decide)

/-- C3: the `performance_improvement` value enters the total exactly
once when "performance" occurs (case-insensitively) in the comment
body or the review body -- also when it occurs in both -- and zero
times when it occurs in neither. -/
theorem performance_bonus_once (event : Event) (cfg : Points) (user source : String)
    (hu : extract_user event = some (user, source)) :
    detect_points event cfg =
      some (review_tier_points event cfg +
        (if pyIn "performance" (lower_comment_body event) ∨
            pyIn "performance" (lower_review_body event) then
          cfg.performance_improvement
        else 0) +
        approval_points event cfg, user) := by
  have hd := detect_points_decomp event cfg
  rw [hu, Option.map_some'] at hd
  simpa [performance_points] using hd

/-- Witness for C3 at a concrete event with "performance" in both
bodies. -/
theorem performance_bonus_once_witness :
    detect_points evPerf cfgF =
      some (review_tier_points evPerf cfgF +
        (if pyIn "performance" (lower_comment_body evPerf) ∨
            pyIn "performance" (lower_review_body evPerf) then
          cfgF.performance_improvement
        else 0) +
        approval_points evPerf cfgF, "carol") :=
  performance_bonus_once evPerf cfgF "carol" "comment.user" (by rfl)

/-- C4: the `approve_pr` value enters the total if and only if the
action is "submitted" and the review state lowercases to "approved". -/
theorem approval_bonus_iff (event : Event) (cfg : Points) (user source : String)
    (hu : extract_user event = some (user, source)) :
    detect_points event cfg =
      some (review_tier_points event cfg + performance_points event cfg +
        (if event.action = some "submitted" ∧
            lower_review_state event = "approved" then
          cfg.approve_pr
        else 0), user) := by
  have hd := detect_points_decomp event cfg
  rw [hu, Option.map_some'] at hd
  simpa [approval_points] using hd

/-- Witness for C4 at a concrete approved review submission. -/
theorem approval_bonus_iff_witness :
    detect_points evApprove cfgF =
      some (review_tier_points evApprove cfgF +
        performance_points evApprove cfgF +
        (if evApprove.action = some "submitted" ∧
            lower_review_state evApprove = "approved" then
          cfgF.approve_pr
        else 0), "alice") :=
  approval_bonus_iff evApprove cfgF "alice" "review.user" (by rfl)

/-- C8: an event carrying an `issue` context without a `pull_request`
sub-field makes `load_event` skip, and the whole processor run ends in
the no-op outcome with the persisted state untouched -- before any
user extraction or scoring (the conclusion holds for every `cfg` and
every state, including events with no extractable user). -/
theorem plain_issue_noop (event : Event) (iss : Issue) (cfg : Points)
    (st : SysState)
    (h1 : event.issue = some iss) (h2 : iss.pull_request = false) :
    load_event (.parsed event) = .skip ∧
    runMain cfg (.parsed event) st = (.noop, st) := by
  have hip : is_plain_issue event = true := by
    simp [is_plain_issue, h1, h2]
  have hle : load_event (.parsed event) = .skip := by
    simp [load_event, hip]
  exact ⟨hle, by simp [runMain, hle]⟩

/-- Witness for C8: a plain-issue comment event with no identifiable
user still exits as a no-op. -/
theorem plain_issue_noop_witness :
    load_event (.parsed evIssue) = .skip ∧
    runMain cfgF (.parsed evIssue) ⟨.missing, .missing⟩ =
      (.noop, ⟨.missing, .missing⟩) :=
  plain_issue_noop evIssue { pull_request := false } cfgF
    ⟨.missing, .missing⟩ (by rfl) (by rfl)

/-- C1: a run of the scoring processor that succeeded leaves a state
on which re-running the identical event is a no-op that returns the
persisted state -- score map included -- unchanged: the recorded id
trips the duplicate guard. -/
theorem duplicate_event_noop (cfg : Points) (evFile : EvFile)
    (st st' : SysState)
    (h : runMain cfg evFile st = (.success, st')) :
    runMain cfg evFile st' = (.noop, st') := by
  cases hle : load_event evFile with
  | fatal => simp [runMain, hle] at h
  | skip => simp [runMain, hle] at h
  | ok event =>
    cases hdp : detect_points event cfg with
    | none => simp [runMain, hle, hdp] at h
    | some pu =>
      obtain ⟨points, user⟩ := pu
      cases hid : event_id event with
      | none => simp [runMain, hle, hdp, hid] at h
      | some id =>
        by_cases hmem : id ∈ load_processed_ids st.procFile
        · simp [runMain, hle, hdp, hid, hmem] at h
        · by_cases hpts : points ≤ 0
          · simp [runMain, hle, hdp, hid, hmem, hpts] at h
          · simp only [runMain, hle, hdp, hid] at h ⊢
            rw [if_neg hmem, if_neg hpts] at h
            have hst : st' =
                { procFile :=
                    .ids (load_processed_ids st.procFile ++ [id]),
                  lbFile :=
                    .obj ((update_leaderboard st.lbFile user points).map
                      fun kv => (kv.1, JVal.num kv.2)) } := by
              have := congrArg Prod.snd h
              simpa using this.symm
            have hmem' : id ∈ load_processed_ids st'.procFile := by
              rw [hst]
              simp [load_processed_ids]
            rw [if_pos hmem']

/-- Witness for C1: after a successful first run of a concrete
approved review over empty persisted state, the identical event is a
no-op leaving the recorded state intact. -/
theorem duplicate_event_noop_witness :
    runMain cfgF (.parsed evApprove)
      ⟨.ids [.num 7], .obj [("alice", JVal.num 13)]⟩ =
      (.noop, ⟨.ids [.num 7], .obj [("alice", JVal.num 13)]⟩) :=
  duplicate_event_noop cfgF (.parsed evApprove) ⟨.missing, .missing⟩
    ⟨.ids [.num 7], .obj [("alice", JVal.num 13)]⟩ (by decide)

/-- `dict[u] = v` makes `u` map to `v`. -/
theorem lookup_dictSet_self (lb : List (String × Int)) (u : String) (v : Int) :
    (dictSet lb u v).lookup u = some v := by
  induction lb with
  | nil => simp [dictSet, List.lookup]
  | cons kv rest ih =>
    by_cases hk : kv.1 = u
    · simp [dictSet, hk, List.lookup]
    · simp only [dictSet, if_neg hk, List.lookup]
      rw [show (u == kv.1) = false by simpa [beq_iff_eq] using Ne.symm hk]
      exact ih

/-- `dict[u] = v` leaves every other key's binding unchanged. -/
theorem lookup_dictSet_other (lb : List (String × Int)) (u w : String)
    (v : Int) (h : w ≠ u) :
    (dictSet lb u v).lookup w = lb.lookup w := by
  induction lb with
  | nil =>
    simp only [dictSet, List.lookup]
    rw [show (w == u) = false by simpa [beq_iff_eq] using h]
  | cons kv rest ih =>
    by_cases hk : kv.1 = u
    · simp only [dictSet, if_pos hk, List.lookup, hk]
      rw [show (w == u) = false by simpa [beq_iff_eq] using h]
    · simp only [dictSet, if_neg hk, List.lookup]
      cases hwk : (w == kv.1)
      · exact ih
      · rfl

/-- C5: the leaderboard updater adds the delta to the user's total
(starting from 0 when absent), leaves every other user's binding
unchanged, treats missing and corrupt score files as the empty map,
and on the spec's example turns alice 10 / bob 15 plus 5 for alice
into alice 15 / bob 15. -/
theorem leaderboard_update_correct (file : LbFile) (user : String) (pts : Int)
    (u : String) (hu : u ≠ user) :
    lookupD (update_leaderboard file user pts) user =
      lookupD (loaded_award_map file) user + pts ∧
    (update_leaderboard file user pts).lookup u =
      (loaded_award_map file).lookup u ∧
    loaded_award_map .missing = [] ∧
    loaded_award_map .corrupt = [] ∧
    update_leaderboard (.obj [("alice", .num 10), ("bob", .num 15)]) "alice" 5 =
      [("alice", 15), ("bob", 15)] := by
  refine ⟨?_, ?_, rfl, rfl, by decide⟩
  · unfold update_leaderboard lookupD
    rw [lookup_dictSet_self]
    rfl
  · unfold update_leaderboard
    exact lookup_dictSet_other _ _ _ _ hu

/-- Witness for C5 on the spec's example map. -/
theorem leaderboard_update_correct_witness :
    lookupD (update_leaderboard
        (.obj [("alice", .num 10), ("bob", .num 15)]) "alice" 5) "alice" =
      lookupD (loaded_award_map
        (.obj [("alice", .num 10), ("bob", .num 15)])) "alice" + 5 ∧
    (update_leaderboard
        (.obj [("alice", .num 10), ("bob", .num 15)]) "alice" 5).lookup "bob" =
      (loaded_award_map
        (.obj [("alice", .num 10), ("bob", .num 15)])).lookup "bob" ∧
    loaded_award_map .missing = [] ∧
    loaded_award_map .corrupt = [] ∧
    update_leaderboard (.obj [("alice", .num 10), ("bob", .num 15)]) "alice" 5 =
      [("alice", 15), ("bob", 15)] :=
  leaderboard_update_correct (.obj [("alice", .num 10), ("bob", .num 15)])
    "alice" 5 "bob" (by decide)

/-- A string is an infix of itself. -/
theorem pyIn_refl (s : String) : pyIn s s :=
  ⟨[], [], by simp⟩

/-- Substring containment survives prepending text. -/
theorem pyIn_append_left (s t k : String) (h : pyIn k t) : pyIn k (s ++ t) := by
  obtain ⟨u, v, huv⟩ := h
  exact ⟨s.data ++ u, v, by simp [← huv, List.append_assoc]⟩

/-- Substring containment survives appending text. -/
theorem pyIn_append_right (s t k : String) (h : pyIn k s) : pyIn k (s ++ t) := by
  obtain ⟨u, v, huv⟩ := h
  exact ⟨u, v ++ t.data, by simp [← huv, List.append_assoc]⟩

/-- Every element of a joined list occurs as a substring of the join. -/
theorem pyIn_pyJoin (sep : String) (l : List String) (k : String)
    (h : k ∈ l) : pyIn k (pyJoin sep l) := by
  induction l with
  | nil => simp at h
  | cons a rest ih =>
    cases rest with
    | nil =>
      rw [List.mem_singleton] at h
      subst h
      exact pyIn_refl k
    | cons b rest' =>
      rcases List.mem_cons.mp h with h' | h'
      · subst h'
        exact pyIn_append_right _ _ _ (pyIn_append_right _ _ _ (pyIn_refl k))
      · exact pyIn_append_left _ _ _ (ih h')

/-- C7: when the `points` section is a mapping lacking one or more of
the four required keys, `load_config` returns the error outcome, its
message names every missing key, and no value is returned in place of
the absent keys. -/
theorem config_missing_keys_error (entries pentries : List (String × YVal))
    (hpts : (YVal.dict entries).get "points" = some (.dict pentries))
    (hmiss : (required_keys.filter fun key =>
        ¬ (YVal.dict pentries).hasKey key) ≠ []) :
    load_config (.parsed (.dict entries)) =
      .error ("ERROR: Missing required keys in config: " ++
        pyJoin ", " (required_keys.filter fun key =>
          ¬ (YVal.dict pentries).hasKey key)) ∧
    ∀ key ∈ (required_keys.filter fun key =>
        ¬ (YVal.dict pentries).hasKey key),
      pyIn key ("ERROR: Missing required keys in config: " ++
        pyJoin ", " (required_keys.filter fun key =>
          ¬ (YVal.dict pentries).hasKey key)) := by
  constructor
  · simp only [load_config, hpts]
    rw [if_neg (by simpa [List.isEmpty_iff] using hmiss)]
  · intro key hkey
    exact pyIn_append_left _ _ _ (pyIn_pyJoin _ _ _ hkey)

/-- Witness for C7 at a config whose points section misses
`detailed_review` and `performance_improvement`. -/
theorem config_missing_keys_error_witness :
    load_config (.parsed (.dict [("points",
        .dict [("basic_review", .num 5), ("approve_pr", .num 3)])])) =
      .error ("ERROR: Missing required keys in config: " ++
        pyJoin ", " (required_keys.filter fun key =>
          ¬ (YVal.dict [("basic_review", YVal.num 5),
              ("approve_pr", YVal.num 3)]).hasKey key)) ∧
    ∀ key ∈ (required_keys.filter fun key =>
        ¬ (YVal.dict [("basic_review", YVal.num 5),
            ("approve_pr", YVal.num 3)]).hasKey key),
      pyIn key ("ERROR: Missing required keys in config: " ++
        pyJoin ", " (required_keys.filter fun key =>
          ¬ (YVal.dict [("basic_review", YVal.num 5),
              ("approve_pr", YVal.num 3)]).hasKey key)) :=
  config_missing_keys_error
    [("points", .dict [("basic_review", .num 5), ("approve_pr", .num 3)])]
    [("basic_review", .num 5), ("approve_pr", .num 3)]
    (by rfl) (by decide)

/-- Every surviving entry of the load-time filter has a non-`top` key
and stems from an entry of the raw object that passes the
`isinstance(v, (int, float))` test, keeping its numeric content. -/
theorem mem_filter_entries {kv : String × Int} {es : List (String × JVal)}
    (h : kv ∈ filter_entries es) :
    kv.1 ≠ "top" ∧
      ∃ v, (kv.1, v) ∈ es ∧ v.isNumber = true ∧ v.asInt = kv.2 := by
  rw [filter_entries, List.mem_filterMap] at h
  obtain ⟨a, ha, hfa⟩ := h
  by_cases hc : a.1 ≠ "top" ∧ a.2.isNumber = true
  · rw [if_pos hc] at hfa
    injection hfa with hfa'
    subst hfa'
    exact ⟨hc.1, a.2, by simpa using ha, hc.2, rfl⟩
  · rw [if_neg hc] at hfa
    exact absurd hfa (by simp)

/-- In a list with pairwise-distinct keys, a key determines its value. -/
theorem nodup_keys_val_eq {α β : Type} {es : List (α × β)}
    (hnd : (es.map Prod.fst).Nodup) {k : α} {a b : β}
    (ha : (k, a) ∈ es) (hb : (k, b) ∈ es) : a = b := by
  induction es with
  | nil => simp at ha
  | cons e rest ih =>
    rw [List.map_cons, List.nodup_cons] at hnd
    obtain ⟨hke, hnd'⟩ := hnd
    rcases List.mem_cons.mp ha with ha' | ha'
    · rcases List.mem_cons.mp hb with hb' | hb'
      · rw [← ha'] at hb'
        exact (Prod.mk.injEq _ _ _ _ ▸ hb').2.symm
      · exfalso
        apply hke
        rw [← ha']
        exact List.mem_map.mpr ⟨(k, b), hb', rfl⟩
    · rcases List.mem_cons.mp hb with hb' | hb'
      · exfalso
        apply hke
        rw [← hb']
        exact List.mem_map.mpr ⟨(k, a), ha', rfl⟩
      · exact ih hnd' ha' hb'

/-- `dict[u] = v` introduces no key besides `u`. -/
theorem keys_dictSet (lb : List (String × Int)) (u : String) (v : Int)
    (w : String) (h : w ∈ (dictSet lb u v).map Prod.fst) :
    w = u ∨ w ∈ lb.map Prod.fst := by
  induction lb with
  | nil =>
    simp [dictSet] at h
    exact .inl h
  | cons kv rest ih =>
    by_cases hk : kv.1 = u
    · simp only [dictSet, if_pos hk, List.map_cons, List.mem_cons] at h
      rcases h with h | h
      · exact .inl h
      · exact .inr (by simp [h])
    · simp only [dictSet, if_neg hk, List.map_cons, List.mem_cons] at h
      rcases h with h | h
      · exact .inr (by simp [h])
      · rcases ih h with h' | h'
        · exact .inl h'
        · exact .inr (by simp [h'])

/-- Counterexample for C10 as frozen: a persisted entry whose value is
the JSON boolean `true` -- not a JSON number, as the second conjunct
records -- passes `isinstance(v, (int, float))` because Python's
`bool` subclasses `int`, so both loaders keep it (as its numeric
content 1) and the full write-back of the next award preserves it
instead of deleting it. -/
theorem bool_entry_retained :
    JVal.isNumber (JVal.bool true) = true ∧
    (∀ n : Int, JVal.bool true ≠ JVal.num n) ∧
    ("flag", JVal.bool true) ∈
      [("alice", JVal.num 10), ("flag", JVal.bool true)] ∧
    load_leaderboard (.obj [("alice", .num 10), ("flag", .bool true)]) =
      some [("alice", 10), ("flag", 1)] ∧
    loaded_award_map (.obj [("alice", .num 10), ("flag", .bool true)]) =
      [("alice", 10), ("flag", 1)] ∧
    update_leaderboard (.obj [("alice", .num 10), ("flag", .bool true)])
      "alice" 5 = [("alice", 15), ("flag", 1)] ∧
    "flag" ∈ (update_leaderboard
      (.obj [("alice", .num 10), ("flag", .bool true)])
      "alice" 5).map Prod.fst :=
  ⟨by decide, fun n h => JVal.noConfusion h, by decide, by decide, by decide,
    by decide, by decide⟩

/-- C10 (amended): loading the score map in either script keeps
exactly the entries that pass Python's `isinstance(v, (int, float))`
test with a key other than `top` -- JSON booleans pass it, `bool`
being an `int` subclass, and are kept as 1/0 -- and an entry whose
value fails the test is invisible to both loaders and, because the
award path writes the filtered map back in full, is absent from the
file an award leaves behind. -/
theorem nonnumeric_entries_dropped (es : List (String × JVal)) (k : String)
    (v : JVal) (user : String) (pts : Int)
    (hnd : (es.map Prod.fst).Nodup) (hmem : (k, v) ∈ es)
    (hv : v.isNumber = false) (hku : k ≠ user) :
    load_leaderboard (.obj es) = some (filter_entries es) ∧
    loaded_award_map (.obj es) = filter_entries es ∧
    (∀ kv ∈ filter_entries es, kv.1 ≠ "top" ∧
      ∃ v', (kv.1, v') ∈ es ∧ v'.isNumber = true ∧ v'.asInt = kv.2) ∧
    (∀ kv ∈ filter_entries es, kv.1 ≠ k) ∧
    k ∉ (update_leaderboard (.obj es) user pts).map Prod.fst := by
  have hdrop : ∀ kv ∈ filter_entries es, kv.1 ≠ k := by
    intro kv hkv hkk
    obtain ⟨_, v', hv'mem, hv'num, -⟩ := mem_filter_entries hkv
    rw [hkk] at hv'mem
    have hvv : v = v' := nodup_keys_val_eq hnd hmem hv'mem
    rw [← hvv, hv] at hv'num
    exact Bool.false_ne_true hv'num
  refine ⟨rfl, rfl, fun kv hkv => mem_filter_entries hkv, hdrop, ?_⟩
  intro hk
  rcases keys_dictSet _ _ _ _ hk with h' | h'
  · exact hku h'
  · obtain ⟨kv, hkv, hfst⟩ := List.mem_map.mp h'
    exact hdrop kv hkv hfst

/-- Witness for C10 (amended): a string-valued entry is dropped by
both loaders and deleted by an award to another user. -/
theorem nonnumeric_entries_dropped_witness :
    load_leaderboard (.obj [("alice", .num 10), ("bad", .str "x")]) =
      some (filter_entries [("alice", .num 10), ("bad", .str "x")]) ∧
    loaded_award_map (.obj [("alice", .num 10), ("bad", .str "x")]) =
      filter_entries [("alice", .num 10), ("bad", .str "x")] ∧
    (∀ kv ∈ filter_entries [("alice", .num 10), ("bad", JVal.str "x")],
      kv.1 ≠ "top" ∧ ∃ v', (kv.1, v') ∈
        [("alice", JVal.num 10), ("bad", JVal.str "x")] ∧
        v'.isNumber = true ∧ v'.asInt = kv.2) ∧
    (∀ kv ∈ filter_entries [("alice", .num 10), ("bad", JVal.str "x")],
      kv.1 ≠ "bad") ∧
    "bad" ∉ (update_leaderboard
      (.obj [("alice", .num 10), ("bad", .str "x")]) "alice" 5).map Prod.fst :=
  nonnumeric_entries_dropped [("alice", .num 10), ("bad", .str "x")]
    "bad" (.str "x") "alice" 5 (by decide) (by decide) (by rfl) (by decide)

/-- The sort key comparison is transitive. -/
theorem le_key_trans (a b c : String × Int)
    (hab : le_key a b) (hbc : le_key b c) : le_key a c := by
  simp only [le_key, Bool.or_eq_true, Bool.and_eq_true, decide_eq_true_eq]
    at hab hbc ⊢
  rcases hab with h1 | ⟨h1e, h1s⟩ <;> rcases hbc with h2 | ⟨h2e, h2s⟩
  · exact .inl (lt_trans h2 h1)
  · exact .inl (h2e ▸ h1)
  · exact .inl (h1e ▸ h2)
  · exact .inr ⟨h1e.trans h2e, le_trans h1s h2s⟩

/-- The sort key comparison is total. -/
theorem le_key_total (a b : String × Int) : le_key a b || le_key b a := by
  simp only [le_key, Bool.or_eq_true, Bool.and_eq_true, decide_eq_true_eq]
  rcases lt_trichotomy a.2 b.2 with h | h | h
  · exact .inr (.inl h)
  · rcases le_total a.1 b.1 with hs | hs
    · exact .inl (.inr ⟨h, hs⟩)
    · exact .inr (.inr ⟨h.symm, hs⟩)
  · exact .inl (.inl h)

/-- `mergeSort` on a two-element list compares the elements once. -/
theorem mergeSort_pair (le : String × Int → String × Int → Bool)
    (a b : String × Int) :
    List.mergeSort [a, b] le = if le a b then [a, b] else [b, a] := by
  rw [List.mergeSort]
  have h1 : ((List.splitInTwo ⟨[a, b], rfl⟩).1 : List (String × Int)) = [a] := by
    simp [List.splitInTwo, List.splitAt_eq]
  have h2 : ((List.splitInTwo ⟨[a, b], rfl⟩).2 : List (String × Int)) = [b] := by
    simp [List.splitInTwo, List.splitAt_eq]
  rw [h1, h2, List.mergeSort_singleton, List.mergeSort_singleton]
  by_cases h : le a b <;> simp [List.merge, h]

/-- C6: over any score map with distinct usernames the rendered order
is strictly descending in points with ties broken by strictly
ascending username; ranks enumerate from 1; the top-three markers are
three distinct strings and rank 4 gets none; the tied map carol 5 /
bob 5 sorts bob first; and the empty map renders the placeholder
document. -/
theorem render_ranking_correct (lb : List (String × Int))
    (hnd : (lb.map Prod.fst).Nodup) :
    (sorted_leaders lb).Pairwise
      (fun a b => b.2 < a.2 ∨ (a.2 = b.2 ∧ a.1 < b.1)) ∧
    (List.enumFrom 1 (sorted_leaders lb)).map Prod.fst =
      List.range' 1 (sorted_leaders lb).length ∧
    (trophy 1 ≠ trophy 2 ∧ trophy 1 ≠ trophy 3 ∧ trophy 2 ≠ trophy 3 ∧
      trophy 4 = "") ∧
    sorted_leaders [("carol", 5), ("bob", 5)] = [("bob", 5), ("carol", 5)] ∧
    generate_markdown [] = md_empty := by
  refine ⟨?_, List.enumFrom_map_fst 1 _, by refine ⟨?_, ?_, ?_, rfl⟩ <;> decide,
    ?_, rfl⟩
  · have hsorted : (sorted_leaders lb).Pairwise (fun a b => le_key a b = true) :=
      List.sorted_mergeSort le_key_trans le_key_total lb
    have hperm : List.Perm (sorted_leaders lb) lb := List.mergeSort_perm lb le_key
    have hnd' : ((sorted_leaders lb).map Prod.fst).Nodup :=
      ((hperm.map Prod.fst).nodup_iff).mpr hnd
    have hne : (sorted_leaders lb).Pairwise (fun a b => a.1 ≠ b.1) :=
      List.pairwise_map.mp hnd'
    refine (hsorted.and hne).imp ?_
    intro a b ⟨hle, hab⟩
    simp only [le_key, Bool.or_eq_true, Bool.and_eq_true, decide_eq_true_eq]
      at hle
    rcases hle with h | ⟨he, hs⟩
    · exact .inl h
    · exact .inr ⟨he, lt_of_le_of_ne hs hab⟩
  · show List.mergeSort [("carol", 5), ("bob", 5)] le_key = _
    rw [mergeSort_pair]
    have hccb : ¬ le_key ("carol", 5) ("bob", 5) = true := by
      simp only [le_key, Bool.or_eq_true, Bool.and_eq_true, decide_eq_true_eq]
      rintro (h | ⟨-, h⟩)
      · exact absurd h (by decide)
      · rw [← not_lt, String.lt_iff_toList_lt] at h
        exact h (by decide)
    rw [if_neg hccb]

/-- Witness for C6 at the spec's tied two-user map. -/
theorem render_ranking_correct_witness :
    (sorted_leaders [("carol", 5), ("bob", 5)]).Pairwise
      (fun a b => b.2 < a.2 ∨ (a.2 = b.2 ∧ a.1 < b.1)) ∧
    (List.enumFrom 1 (sorted_leaders [("carol", 5), ("bob", 5)])).map
        Prod.fst =
      List.range' 1 (sorted_leaders [("carol", 5), ("bob", 5)]).length ∧
    (trophy 1 ≠ trophy 2 ∧ trophy 1 ≠ trophy 3 ∧ trophy 2 ≠ trophy 3 ∧
      trophy 4 = "") ∧
    sorted_leaders [("carol", 5), ("bob", 5)] = [("bob", 5), ("carol", 5)] ∧
    generate_markdown [] = md_empty :=
  render_ranking_correct [("carol", 5), ("bob", 5)] (by decide)

/-- The load-time filter distributes over list append. -/
theorem filter_entries_append (es fs : List (String × JVal)) :
    filter_entries (es ++ fs) = filter_entries es ++ filter_entries fs :=
  List.filterMap_append es fs _

/-- The load-time filter keeps a numeric entry with a non-`top` key. -/
theorem filter_entries_cons_num (k : String) (n : Int)
    (es : List (String × JVal)) (hk : k ≠ "top") :
    filter_entries ((k, .num n) :: es) = (k, n) :: filter_entries es := by
  simp [filter_entries, List.filterMap_cons, hk, JVal.isNumber, JVal.asInt]

/-- The load-time filter drops a string-valued singleton entry. -/
theorem filter_entries_str (k s : String) :
    filter_entries [(k, JVal.str s)] = [] := by
  simp [filter_entries, List.filterMap_cons, JVal.isNumber]

/-- Writing a top-free integer map as JSON numbers and filtering it
back yields the same map. -/
theorem filter_entries_map_num (lb : List (String × Int))
    (h : ∀ kv ∈ lb, kv.1 ≠ "top") :
    filter_entries (lb.map fun kv => (kv.1, JVal.num kv.2)) = lb := by
  induction lb with
  | nil => rfl
  | cons kv rest ih =>
    obtain ⟨k, n⟩ := kv
    rw [List.map_cons, filter_entries_cons_num k n _ (h (k, n) (by simp)),
      ih fun kv hkv => h kv (by simp [hkv])]

/-- Assigning a key absent from a dict appends the binding. -/
theorem dictSetJ_not_mem (d : List (String × JVal)) (key : String) (v : JVal)
    (h : ∀ kv ∈ d, kv.1 ≠ key) :
    dictSetJ d key v = d ++ [(key, v)] := by
  induction d with
  | nil => rfl
  | cons kv rest ih =>
    rw [dictSetJ, if_neg (h kv (by simp)), ih fun kv hkv => h kv (by simp [hkv])]
    rfl

/-- Reloading the object written by `update_leaderboard_json` recovers
exactly the map that was rendered. -/
theorem filter_entries_update_json (lb : List (String × Int))
    (h : ∀ kv ∈ lb, kv.1 ≠ "top") :
    filter_entries (update_leaderboard_json lb) = lb := by
  unfold update_leaderboard_json
  rw [dictSetJ_not_mem _ _ _ (by
    intro kv hkv
    obtain ⟨kv0, hkv0, heq⟩ := List.mem_map.mp hkv
    rw [← heq]
    exact h kv0 hkv0)]
  rw [filter_entries_append, filter_entries_map_num lb h,
    filter_entries_str, List.append_nil]

/-- C9: if a render run succeeds, rendering again over the file it
wrote -- `top` bookkeeping entry included -- succeeds and produces the
byte-identical document. -/
theorem render_twice_identical (file file' : LbFile) (md : String)
    (h : render_main file = .ok (file', md)) :
    ∃ file2, render_main file' = .ok (file2, md) := by
  cases file with
  | missing => simp [render_main, load_leaderboard] at h
  | corrupt => simp [render_main, load_leaderboard] at h
  | obj es =>
    simp only [render_main, load_leaderboard] at h
    injection h with hpair
    injection hpair with hfile hmd
    subst hfile
    subst hmd
    have hnt : ∀ kv ∈ filter_entries es, kv.1 ≠ "top" :=
      fun kv hkv => (mem_filter_entries hkv).1
    have hkey : filter_entries (update_leaderboard_json (filter_entries es)) =
        filter_entries es := filter_entries_update_json _ hnt
    exact ⟨.obj (update_leaderboard_json (filter_entries es)),
      by simp only [render_main, load_leaderboard, hkey]⟩

/-- Witness for C9 at a concrete one-user score file. -/
theorem render_twice_identical_witness :
    ∃ file2, render_main (.obj (update_leaderboard_json [("alice", 3)])) =
      .ok (file2, generate_markdown [("alice", 3)]) :=
  render_twice_identical (.obj [("alice", JVal.num 3)])
    (.obj (update_leaderboard_json [("alice", 3)]))
    (generate_markdown [("alice", 3)]) (by rfl)

end Agent365
